import Mathlib

/-!
Shallow embedding of the `openai-auth` crate (OAuth 2.0 authorization-code flow
with PKCE for OpenAI), covering the error taxonomy (`src/error.rs`), the token
value type (`src/types.rs`), the blocking client operations (`src/blocking.rs`),
the JWT claim extractor (`src/jwt.rs`), and the local callback listener
(`src/server.rs`).

External collaborators (the `url` crate's parser, `reqwest`'s HTTP transport,
`serde`/`jsonwebtoken` decoding, the OS randomness source) are modelled at
their interface boundary: their results enter the embedded functions as
explicit arguments.  Everything the crate itself computes is translated
directly from the source.
-/

namespace OpenAIAuth

/-- From `src/error.rs`: the `OpenAIAuthError` enum.  Variants that wrap foreign
error types (`reqwest::Error`, `url::ParseError`, `serde_json::Error`,
`jsonwebtoken::errors::Error`, converted via `#[from]`) carry the foreign
error's message as a string. -/
inductive OpenAIAuthError where
  | ClientCreation (msg : String)
  | InvalidAuthorizationCode
  | TokenExchange (msg : String)
  | TokenRefresh (msg : String)
  | TokenExpired
  | InvalidJwt (msg : String)
  | MissingJwtClaim (claim : String)
  | Network (msg : String)
  | Http (status : Nat) (body : String)
  | ApiKeyExchange (status : Nat) (body : String)
  | OAuth (msg : String)
  | UrlParse (msg : String)
  | CallbackServer (msg : String)
  | BrowserLaunch (msg : String)
  | Serialization (msg : String)
  | JwtDecode (msg : String)
  | InvalidConfig (msg : String)
  | Base64Decode (msg : String)
  deriving DecidableEq, Repr

/-- Discriminator used to compare error kinds irrespective of payload. -/
def OpenAIAuthError.kind : OpenAIAuthError → String
  | .ClientCreation _ => "ClientCreation"
  | .InvalidAuthorizationCode => "InvalidAuthorizationCode"
  | .TokenExchange _ => "TokenExchange"
  | .TokenRefresh _ => "TokenRefresh"
  | .TokenExpired => "TokenExpired"
  | .InvalidJwt _ => "InvalidJwt"
  | .MissingJwtClaim _ => "MissingJwtClaim"
  | .Network _ => "Network"
  | .Http _ _ => "Http"
  | .ApiKeyExchange _ _ => "ApiKeyExchange"
  | .OAuth _ => "OAuth"
  | .UrlParse _ => "UrlParse"
  | .CallbackServer _ => "CallbackServer"
  | .BrowserLaunch _ => "BrowserLaunch"
  | .Serialization _ => "Serialization"
  | .JwtDecode _ => "JwtDecode"
  | .InvalidConfig _ => "InvalidConfig"
  | .Base64Decode _ => "Base64Decode"

/-- From `src/types.rs`: the `TokenSet` struct.  `expires_at` is a Unix timestamp
in seconds (`u64` in the source, modelled as `Nat`). -/
structure TokenSet where
  access_token : String
  id_token : Option String
  refresh_token : String
  expires_at : Nat
  api_key : Option String
  deriving DecidableEq, Repr

/-- From `src/types.rs` lines 34-45: `TokenSet::expires_in`.  The current wall-clock
time (`SystemTime::now` as seconds since the epoch) is passed explicitly as
`now`.  Durations are whole seconds, so the result is a `Nat`; `Duration::ZERO`
is `0`. -/
def TokenSet.expires_in (ts : TokenSet) (now : Nat) : Nat :=
  if ts.expires_at > now then ts.expires_at - now else 0

/-- From `src/types.rs` lines 27-29: `TokenSet::is_expired`, true when the token
expires within the 300-second buffer. -/
def TokenSet.is_expired (ts : TokenSet) (now : Nat) : Bool :=
  ts.expires_in now ≤ 300

/-- From `src/types.rs`: the `OAuthConfig` struct. -/
structure OAuthConfig where
  client_id : String
  auth_url : String
  token_url : String
  redirect_uri : String
  deriving DecidableEq, Repr

/-- From `src/types.rs` lines 75-84: `Default for OAuthConfig`. -/
def OAuthConfig.defaultConfig : OAuthConfig where
  client_id := "app_EMoamEEZ73f0CkXaXp7hrann"
  auth_url := "https://auth.openai.com/oauth/authorize"
  token_url := "https://auth.openai.com/oauth/token"
  redirect_uri := "http://localhost:1455/auth/callback"

/-- Interface-level model of the `url` crate's `Url` value: the part of the
URL before the query plus the mutable list of query pairs that
`query_pairs_mut().append_pair(...)` extends.  Serialization back to a string
(`Url::to_string`, with its percent-encoding) stays on the library side of
the boundary, so the flow descriptor below retains the structured URL. -/
structure Url where
  base : String
  query : List (String × String)
  deriving DecidableEq, Repr

/-- Model of `Url::query_pairs_mut().append_pair(...)` chains: each pair is appended to
the end of the query, in call order. -/
def Url.appendPairs (u : Url) (ps : List (String × String)) : Url :=
  { u with query := u.query ++ ps }

/-- From `src/types.rs`: the `OAuthFlow` struct returned by `start_flow`; the
authorization URL is kept in structured form (see `Url`). -/
structure OAuthFlow where
  authorization_url : Url
  pkce_verifier : String
  state : String

/-- From `src/blocking.rs`: the blocking `OAuthClient`, holding only its
configuration. -/
structure OAuthClient where
  config : OAuthConfig
  deriving DecidableEq, Repr

/-- From `src/blocking.rs` lines 42-44: `OAuthClient::new` wraps the configuration
without inspecting it. -/
def OAuthClient.new (config : OAuthConfig) : Except OpenAIAuthError OAuthClient :=
  .ok { config := config }

/-- From `src/blocking.rs` lines 67-91: `OAuthClient::start_flow`.
`parseResult` is the outcome of `Url::parse(&self.config.auth_url)` (the `url`
crate is external; its `ParseError` message is carried as a string, and the
`?` operator converts it through `#[from] url::ParseError` into the
`UrlParse` variant).  The freshly generated CSRF state and PKCE pair are
passed in explicitly, standing for `generate_random_state()` and
`generate_pkce_pair()`. -/
def OAuthClient.start_flow (c : OAuthClient) (parseResult : Except String Url)
    (state pkce_challenge pkce_verifier : String) :
    Except OpenAIAuthError OAuthFlow :=
  match parseResult with
  | .error e => .error (.UrlParse e)
  | .ok u =>
    let u := u.appendPairs
      [("response_type", "code"),
       ("client_id", c.config.client_id),
       ("redirect_uri", c.config.redirect_uri),
       ("scope", "openid profile email offline_access"),
       ("code_challenge", pkce_challenge),
       ("code_challenge_method", "S256"),
       ("state", state),
       ("id_token_add_organizations", "true"),
       ("codex_cli_simplified_flow", "true"),
       ("originator", "codex_cli_rs")]
    .ok { authorization_url := u, pkce_verifier := pkce_verifier, state := state }

/-- An HTTP response as this crate observes it: status code and body text. -/
structure HttpResponse where
  status : Nat
  body : String
  deriving DecidableEq, Repr

/-- Model of `reqwest::StatusCode::is_success`: status in `200..=299`. -/
def statusIsSuccess (status : Nat) : Bool :=
  200 ≤ status ∧ status < 300

/-- From `src/blocking.rs` lines 166-201: the response handling of
`OAuthClient::obtain_api_key`.  The network transport is abstracted: `resp`
is the token endpoint's response; `decodeExchange` abstracts serde's JSON
decoding of the `ExchangeResponse` body into its `access_token` field (a
decode failure surfaces as `reqwest::Error`, i.e. the `Network` variant). -/
def OAuthClient.obtain_api_key (decodeExchange : String → Option String)
    (resp : HttpResponse) : Except OpenAIAuthError String :=
  if ¬ statusIsSuccess resp.status then
    .error (.Http resp.status resp.body)
  else
    match decodeExchange resp.body with
    | some tok => .ok tok
    | none => .error (.Network "error decoding response body")

/-- From `src/blocking.rs` lines 238-261: the response handling of
`OAuthClient::refresh_token` (same interface abstraction as
`obtain_api_key`; `decodeTokens` abstracts decoding of `TokenResponse`). -/
def OAuthClient.refresh_token (decodeTokens : String → Option TokenSet)
    (resp : HttpResponse) : Except OpenAIAuthError TokenSet :=
  if ¬ statusIsSuccess resp.status then
    .error (.ApiKeyExchange resp.status resp.body)
  else
    match decodeTokens resp.body with
    | some ts => .ok ts
    | none => .error (.Network "error decoding response body")

/-- From `src/jwt.rs` lines 8-11: the nested `https://api.openai.com/auth` claim
object. -/
structure OpenAIAuthClaims where
  chatgpt_account_id : Option String
  deriving DecidableEq, Repr

/-- From `src/jwt.rs` lines 14-18: the decoded JWT claims. -/
structure Claims where
  openai_auth : Option OpenAIAuthClaims
  deriving DecidableEq, Repr

/-- From `src/jwt.rs` lines 42-44: the `jsonwebtoken::Validation` configuration
built by `extract_account_id`: `insecure_disable_signature_validation()` and
`validation.validate_exp = false`. -/
structure JwtValidation where
  validate_signature : Bool
  validate_exp : Bool
  deriving DecidableEq, Repr

/-- The validation settings `extract_account_id` always uses. -/
def extract_account_id_validation : JwtValidation :=
  { validate_signature := false, validate_exp := false }

/-- From `src/jwt.rs` lines 39-53: `extract_account_id`.  `decoded` is the outcome
of `jsonwebtoken::decode::<Claims>` (external library; its error message is
carried as a string, and the `?` operator converts it through
`#[from] jsonwebtoken::errors::Error` into the `JwtDecode` variant). -/
def extract_account_id (decoded : Except String Claims) :
    Except OpenAIAuthError String :=
  match decoded with
  | .error e => .error (.JwtDecode e)
  | .ok token_claims =>
    match token_claims.openai_auth.bind (fun a => a.chatgpt_account_id) with
    | some accountId => .ok accountId
    | none => .error (.MissingJwtClaim "chatgpt_account_id")

/-! ## Callback listener (`src/server.rs`) -/

/-- From `src/server.rs` lines 7-11: the data handed to the waiting consumer on
success. -/
structure CallbackData where
  code : String
  state_field : String
  deriving DecidableEq, Repr

/-- The value sent on the oneshot channel: `Result<CallbackData>`. -/
abbrev CallbackMsg := Except OpenAIAuthError CallbackData

deriving instance DecidableEq for Except

/-- Rust's `str::starts_with(prefix: &str)`. -/
def strStartsWith (s p : String) : Bool :=
  p.data.isPrefixOf s.data

/-- Interface-level model of `tokio::sync::oneshot` as seen from the sending
side: `receiverAlive` records whether the consumer still holds the receiving
half, and `sent` is the history of messages successfully handed to the slot.
`Sender::send` consumes the sender (modelled by `ServerState.txPresent`
below); if the receiver was dropped the message is returned to the caller
and nothing reaches the slot — in either case the call returns normally. -/
structure Oneshot where
  receiverAlive : Bool
  sent : List CallbackMsg

/-- Model of `oneshot::Sender::send`: delivers iff the receiver is still alive; never
fails fatally (the `Result` it returns is discarded by `let _ =` at every
call site in `process_callback`). -/
def Oneshot.send (ch : Oneshot) (m : CallbackMsg) : Oneshot :=
  if ch.receiverAlive then { ch with sent := ch.sent ++ [m] } else ch

/-- From `src/server.rs` lines 20-26: the `CallbackEvent` enum passed to the HTML
responder. -/
inductive CallbackEvent where
  | Success (code : String)
  | Error (reason : String)
  | StateMismatch
  | MissingCode
  deriving DecidableEq, Repr

/-- From `src/server.rs` lines 13-17: the shared `ServerState`.  `txPresent`
models `tx: Mutex<Option<oneshot::Sender<..>>>` — `true` while the `Option`
still holds the sender. -/
structure ServerState where
  txPresent : Bool
  expected_state : String
  html_responder : CallbackEvent → String

/-- Model of `state.tx.lock().unwrap().take().map(|tx| tx.send(m))`: empties the
sender slot and, if a sender was still there, performs the oneshot send. -/
def ServerState.trySend (st : ServerState) (ch : Oneshot) (m : CallbackMsg) :
    ServerState × Oneshot :=
  ({ st with txPresent := false },
   if st.txPresent then ch.send m else ch)

/-- The observable result of `process_callback`: the updated shared state and
channel, the `CallbackEvent` constructed for the responder, the HTML body
returned to the browser, and the `should_stop` flag. -/
structure ProcessResult where
  st : ServerState
  ch : Oneshot
  event : CallbackEvent
  html : String
  should_stop : Bool

/-- From `src/server.rs` lines 168-223: `process_callback`.  Each branch builds a
`CallbackEvent`, consumes the sender slot via `take()`, sends the matching
message, and returns the responder's HTML together with `should_stop`
(`true` in every branch).  The event value the source passes to
`state.html_responder` is exposed in the result alongside the HTML it
produces. -/
def process_callback (code received_state error : Option String)
    (st : ServerState) (ch : Oneshot) : ProcessResult :=
  match error with
  | some err =>
    let (st', ch') := st.trySend ch (.error (.OAuth ("OAuth error: " ++ err)))
    { st := st', ch := ch', event := .Error err,
      html := st.html_responder (.Error err), should_stop := true }
  | none =>
    let received_state_str := received_state.getD ""
    if received_state_str ≠ st.expected_state then
      let (st', ch') :=
        st.trySend ch (.error (.OAuth "State mismatch - possible CSRF attack"))
      { st := st', ch := ch', event := .StateMismatch,
        html := st.html_responder .StateMismatch, should_stop := true }
    else
      match code with
      | some c =>
        let (st', ch') :=
          st.trySend ch (.ok { code := c, state_field := received_state_str })
        { st := st', ch := ch', event := .Success c,
          html := st.html_responder (.Success c), should_stop := true }
      | none =>
        let (st', ch') := st.trySend ch (.error .InvalidAuthorizationCode)
        { st := st', ch := ch', event := .MissingCode,
          html := st.html_responder .MissingCode, should_stop := true }

/-- An inbound HTTP request as the listener observes it (`request.url()` is
the full path-plus-query string). -/
structure Request where
  url : String
  deriving DecidableEq, Repr

/-- Rust's `str::split(sep: char)` over the character list: every separator
occurrence cuts, the empty string yields one empty piece. -/
def splitOnChar (sep : Char) : List Char → List (List Char)
  | [] => [[]]
  | c :: rest =>
    if c = sep then [] :: splitOnChar sep rest
    else
      match splitOnChar sep rest with
      | [] => [[c]]
      | g :: gs => (c :: g) :: gs

/-- Model of `str::split` on a `String`, producing `String` pieces. -/
def strSplit (sep : Char) (s : String) : List String :=
  (splitOnChar sep s.data).map String.mk

/-- The `querystring` crate's `querify`: split the query string on `&`, then
each pair on `=`, keeping the first two pieces; pieces without a `=` are
skipped. -/
def querify (s : String) : List (String × String) :=
  (strSplit '&' s).filterMap fun pair =>
    match strSplit '=' pair with
    | k :: v :: _ => some (k, v)
    | _ => none

/-- From `src/server.rs` lines 135-166: `handle_callback_request`.  Extracts the
query string (`url.split('?').nth(1).unwrap_or("")`), looks up the first
`code`, `state` and `error` parameters, and runs `process_callback`. -/
def handle_callback_request (req : Request) (st : ServerState) (ch : Oneshot) :
    ProcessResult :=
  let query_str := ((strSplit '?' req.url).drop 1).headD ""
  let params := querify query_str
  let code := (params.find? (fun p => p.1 == "code")).map (fun p => p.2)
  let received_state := (params.find? (fun p => p.1 == "state")).map (fun p => p.2)
  let error := (params.find? (fun p => p.1 == "error")).map (fun p => p.2)
  process_callback code received_state error st ch

/-- The final observable state of the accept loop: shared state, channel,
and the HTTP responses produced, in order. -/
structure LoopResult where
  st : ServerState
  ch : Oneshot
  responses : List HttpResponse

/-- From `src/server.rs` lines 116-130: the accept loop of `run_sync_server`,
run over an explicit list of inbound requests.  URLs starting with
`/auth/callback` are handed to `handle_callback_request` (whose HTML reply
is served with tiny_http's default status 200) and the loop breaks when it
reports `should_stop`; every other URL is answered `404 Not Found` and the
loop continues. -/
def run_sync_server_loop : List Request → ServerState → Oneshot → LoopResult
  | [], st, ch => { st := st, ch := ch, responses := [] }
  | req :: rest, st, ch =>
    if strStartsWith req.url "/auth/callback" then
      let r := handle_callback_request req st ch
      if r.should_stop then
        { st := r.st, ch := r.ch, responses := [{ status := 200, body := r.html }] }
      else
        let rec' := run_sync_server_loop rest r.st r.ch
        { rec' with responses := { status := 200, body := r.html } :: rec'.responses }
    else
      let rec' := run_sync_server_loop rest st ch
      { rec' with responses := { status := 404, body := "Not Found" } :: rec'.responses }

/-- The path component of a request URL: everything before the first `?`. -/
def urlPath (url : String) : String :=
  (strSplit '?' url).headD ""

/-- Modelled from the claim's words (specification side, for comparison with
`process_callback`): the four-way outcome classification in the order the
specification prescribes — a present `error` parameter wins outright; then a
`state` parameter (empty string when absent) differing byte-for-byte from
the expected state; then a missing `code`; otherwise success with the
code. -/
def classifyOutcomeSpec (code received_state error : Option String)
    (expected : String) : CallbackEvent :=
  match error with
  | some err => .Error err
  | none =>
    if received_state.getD "" ≠ expected then .StateMismatch
    else
      match code with
      | some c => .Success c
      | none => .MissingCode

/-! ## PKCE generator (`src/types.rs` lines 181-191)

The source calls two external primitives: the `base64` crate's
`URL_SAFE_NO_PAD` engine and the `sha2` crate's SHA-256.  Both are fully
deterministic, so they are embedded as executable Lean functions over byte
lists (`Nat`s below 256); only the 32 random bytes from `rand` enter as an
argument. -/

/-- The URL-safe base64 alphabet (RFC 4648 §5), as used by the `base64`
crate's `URL_SAFE_NO_PAD` engine. -/
def b64Alphabet : List Char :=
  "ABCDEFGHIJKLMNOPQRSTUVWXYZabcdefghijklmnopqrstuvwxyz0123456789-_".toList

/-- The alphabet character for a 6-bit value. -/
def b64Char (n : Nat) : Char :=
  b64Alphabet.getD n 'A'

/-- The 6-bit value of an alphabet character, if any. -/
def b64CharVal (c : Char) : Option Nat :=
  b64Alphabet.findIdx? (fun d => d = c)

/-- Base64url encoding without padding: three input bytes become four
characters; a final group of one or two bytes becomes two or three
characters with the spare low bits zero. -/
def b64urlEncode : List Nat → List Char
  | [] => []
  | [b1] =>
    [b64Char (b1 / 4), b64Char (b1 % 4 * 16)]
  | [b1, b2] =>
    [b64Char (b1 / 4), b64Char (b1 % 4 * 16 + b2 / 16), b64Char (b2 % 16 * 4)]
  | b1 :: b2 :: b3 :: rest =>
    b64Char (b1 / 4) :: b64Char (b1 % 4 * 16 + b2 / 16) ::
    b64Char (b2 % 16 * 4 + b3 / 64) :: b64Char (b3 % 64) :: b64urlEncode rest

/-- Base64url decoding without padding, inverse to `b64urlEncode`: four
characters yield three bytes; a final group of two or three characters
yields one or two bytes (spare low bits discarded); a lone trailing
character or a character outside the alphabet is rejected. -/
def b64urlDecode : List Char → Option (List Nat)
  | [] => some []
  | [_] => none
  | [c1, c2] =>
    match b64CharVal c1, b64CharVal c2 with
    | some v1, some v2 => some [v1 * 4 + v2 / 16]
    | _, _ => none
  | [c1, c2, c3] =>
    match b64CharVal c1, b64CharVal c2, b64CharVal c3 with
    | some v1, some v2, some v3 =>
      some [v1 * 4 + v2 / 16, v2 % 16 * 16 + v3 / 4]
    | _, _, _ => none
  | c1 :: c2 :: c3 :: c4 :: rest =>
    match b64CharVal c1, b64CharVal c2, b64CharVal c3, b64CharVal c4,
        b64urlDecode rest with
    | some v1, some v2, some v3, some v4, some bs =>
      some ((v1 * 4 + v2 / 16) :: (v2 % 16 * 16 + v3 / 4) ::
            (v3 % 4 * 64 + v4) :: bs)
    | _, _, _, _, _ => none

/-- Truncation to a 32-bit word. -/
def w32 (n : Nat) : Nat := n % 4294967296

/-- Right rotation of a 32-bit word (argument assumed below `2 ^ 32`). -/
def rotr32 (x n : Nat) : Nat :=
  x % 2 ^ n * 2 ^ (32 - n) + x / 2 ^ n

/-- SHA-256 small sigma 0. -/
def ssig0 (x : Nat) : Nat := rotr32 x 7 ^^^ rotr32 x 18 ^^^ x / 8

/-- SHA-256 small sigma 1. -/
def ssig1 (x : Nat) : Nat := rotr32 x 17 ^^^ rotr32 x 19 ^^^ x / 1024

/-- SHA-256 big sigma 0. -/
def bsig0 (x : Nat) : Nat := rotr32 x 2 ^^^ rotr32 x 13 ^^^ rotr32 x 22

/-- SHA-256 big sigma 1. -/
def bsig1 (x : Nat) : Nat := rotr32 x 6 ^^^ rotr32 x 11 ^^^ rotr32 x 25

/-- The 64 SHA-256 round constants (FIPS 180-4, written in decimal). -/
def sha256K : List Nat :=
  [1116352408, 1899447441, 3049323471, 3921009573, 961987163,
   1508970993, 2453635748, 2870763221, 3624381080, 310598401,
   607225278, 1426881987, 1925078388, 2162078206, 2614888103,
   3248222580, 3835390401, 4022224774, 264347078, 604807628,
   770255983, 1249150122, 1555081692, 1996064986, 2554220882,
   2821834349, 2952996808, 3210313671, 3336571891, 3584528711,
   113926993, 338241895, 666307205, 773529912, 1294757372,
   1396182291, 1695183700, 1986661051, 2177026350, 2456956037,
   2730485921, 2820302411, 3259730800, 3345764771, 3516065817,
   3600352804, 4094571909, 275423344, 430227734, 506948616,
   659060556, 883997877, 958139571, 1322822218, 1537002063,
   1747873779, 1955562222, 2024104815, 2227730452, 2361852424,
   2428436474, 2756734187, 3204031479, 3329325298]

/-- The SHA-256 working state: eight 32-bit words. -/
structure Hash8 where
  a : Nat
  b : Nat
  c : Nat
  d : Nat
  e : Nat
  f : Nat
  g : Nat
  h : Nat
  deriving DecidableEq, Repr

/-- The SHA-256 initial hash value (FIPS 180-4, written in decimal). -/
def sha256H0 : Hash8 :=
  { a := 1779033703, b := 3144134277, c := 1013904242, d := 2773480762,
    e := 1359893119, f := 2600822924, g := 528734635, h := 1541459225 }

/-- One SHA-256 compression round for the constant-and-schedule-word pair
`kw`. -/
def sha256Round (s : Hash8) (kw : Nat × Nat) : Hash8 :=
  let S1 := bsig1 s.e
  let chv := (s.e &&& s.f) ^^^ ((s.e ^^^ 4294967295) &&& s.g)
  let temp1 := w32 (s.h + S1 + chv + kw.1 + kw.2)
  let S0 := bsig0 s.a
  let maj := (s.a &&& s.b) ^^^ (s.a &&& s.c) ^^^ (s.b &&& s.c)
  let temp2 := w32 (S0 + maj)
  { a := w32 (temp1 + temp2), b := s.a, c := s.b, d := s.c,
    e := w32 (s.d + temp1), f := s.e, g := s.f, h := s.g }

/-- Big-endian packing of bytes into 32-bit words, four at a time. -/
def bytesToWords : List Nat → List Nat
  | b1 :: b2 :: b3 :: b4 :: rest =>
    (b1 * 16777216 + b2 * 65536 + b3 * 256 + b4) :: bytesToWords rest
  | _ => []

/-- One step of the SHA-256 message-schedule extension, appending word
`w[i]` computed from `w[i-16]`, `w[i-15]`, `w[i-7]` and `w[i-2]`. -/
def sha256ExtendStep (acc : List Nat) : List Nat :=
  let i := acc.length
  acc ++ [w32 (acc.getD (i - 16) 0 + ssig0 (acc.getD (i - 15) 0) +
               acc.getD (i - 7) 0 + ssig1 (acc.getD (i - 2) 0))]

/-- Extend the sixteen block words to the 64-entry message schedule. -/
def sha256Schedule (ws : List Nat) : List Nat :=
  (List.range 48).foldl (fun acc _ => sha256ExtendStep acc) ws

/-- Process one 64-byte block. -/
def sha256Block (s : Hash8) (block : List Nat) : Hash8 :=
  let ws := sha256Schedule (bytesToWords block)
  let t := (sha256K.zip ws).foldl sha256Round s
  { a := w32 (s.a + t.a), b := w32 (s.b + t.b), c := w32 (s.c + t.c),
    d := w32 (s.d + t.d), e := w32 (s.e + t.e), f := w32 (s.f + t.f),
    g := w32 (s.g + t.g), h := w32 (s.h + t.h) }

/-- Split a byte list into 64-byte chunks. -/
def chunks64 (l : List Nat) : List (List Nat) :=
  if h : l.length = 0 then []
  else
    have : (l.drop 64).length < l.length := by
      rw [List.length_drop]; omega
    l.take 64 :: chunks64 (l.drop 64)
termination_by l.length

/-- SHA-256 padding: append the `0x80` marker, zeros up to 56 mod 64, and
the 8-byte big-endian bit length. -/
def sha256Pad (msg : List Nat) : List Nat :=
  let len := msg.length
  let bitLen := len * 8
  msg ++ 128 :: List.replicate ((64 - (len + 9) % 64) % 64) 0 ++
    [bitLen / 2 ^ 56 % 256, bitLen / 2 ^ 48 % 256, bitLen / 2 ^ 40 % 256,
     bitLen / 2 ^ 32 % 256, bitLen / 2 ^ 24 % 256, bitLen / 2 ^ 16 % 256,
     bitLen / 2 ^ 8 % 256, bitLen % 256]

/-- Big-endian bytes of the final hash words. -/
def word4 (w : Nat) : List Nat :=
  [w / 16777216 % 256, w / 65536 % 256, w / 256 % 256, w % 256]

/-- The 32 digest bytes of a final SHA-256 state. -/
def hash8Bytes (s : Hash8) : List Nat :=
  word4 s.a ++ word4 s.b ++ word4 s.c ++ word4 s.d ++
  word4 s.e ++ word4 s.f ++ word4 s.g ++ word4 s.h

/-- SHA-256 of a byte message. -/
def sha256 (msg : List Nat) : List Nat :=
  hash8Bytes ((chunks64 (sha256Pad msg)).foldl sha256Block sha256H0)

/-- The ASCII bytes of a character list (`str::as_bytes` on the all-ASCII
base64 output). -/
def charsToBytes (cs : List Char) : List Nat :=
  cs.map Char.toNat

/-- From `src/types.rs` lines 181-191: `generate_pkce_pair`.  The 32 bytes from
`rand::thread_rng().fill_bytes` enter as `randomBytes`; the verifier is
their unpadded base64url encoding, the challenge the unpadded base64url
encoding of the SHA-256 digest of the verifier's bytes.  Returns
`(challenge, verifier)` in source order. -/
def generate_pkce_pair (randomBytes : List Nat) : List Char × List Char :=
  let verifier := b64urlEncode randomBytes
  let digest := sha256 (charsToBytes verifier)
  let challenge := b64urlEncode digest
  (challenge, verifier)

/-! ## Helper lemmas -/

/-- Decoding inverts the alphabet lookup on 6-bit values. -/
theorem b64CharVal_b64Char : ∀ n < 64, b64CharVal (b64Char n) = some n := by
  decide

/-- The alphabet character of any index lies in the alphabet. -/
theorem b64Char_mem (n : Nat) : b64Char n ∈ b64Alphabet := by
  rcases Nat.lt_or_ge n 64 with h | h
  · revert n
    decide
  · have hlen : b64Alphabet.length ≤ n := by
      have : b64Alphabet.length = 64 := by decide
      omega
    unfold b64Char
    rw [List.getD_eq_default _ _ hlen]
    decide

/-- Every character produced by `b64urlEncode` lies in the URL-safe
alphabet. -/
theorem b64urlEncode_mem : ∀ (l : List Nat), ∀ c ∈ b64urlEncode l, c ∈ b64Alphabet
  | [], _, h => by simp [b64urlEncode] at h
  | [b1], c, h => by
    simp only [b64urlEncode, List.mem_cons, List.not_mem_nil, or_false] at h
    rcases h with rfl | rfl <;> exact b64Char_mem _
  | [b1, b2], c, h => by
    simp only [b64urlEncode, List.mem_cons, List.not_mem_nil, or_false] at h
    rcases h with rfl | rfl | rfl <;> exact b64Char_mem _
  | b1 :: b2 :: b3 :: rest, c, h => by
    simp only [b64urlEncode, List.mem_cons] at h
    rcases h with rfl | rfl | rfl | rfl | h
    · exact b64Char_mem _
    · exact b64Char_mem _
    · exact b64Char_mem _
    · exact b64Char_mem _
    · exact b64urlEncode_mem rest c h

/-- Length of the unpadded base64url encoding. -/
theorem b64urlEncode_length : ∀ l : List Nat,
    (b64urlEncode l).length = (4 * l.length + 2) / 3
  | [] => rfl
  | [_] => by simp [b64urlEncode]
  | [_, _] => by simp [b64urlEncode]
  | b1 :: b2 :: b3 :: rest => by
    simp only [b64urlEncode, List.length_cons]
    rw [b64urlEncode_length rest]
    omega

/-- Decoding inverts encoding on byte lists. -/
theorem b64url_decode_encode : ∀ l : List Nat, (∀ b ∈ l, b < 256) →
    b64urlDecode (b64urlEncode l) = some l
  | [], _ => rfl
  | [b1], h => by
    have hb1 : b1 < 256 := h b1 (by simp)
    simp only [b64urlEncode, b64urlDecode]
    rw [b64CharVal_b64Char _ (by omega), b64CharVal_b64Char _ (by omega)]
    simp only [Option.some.injEq, List.cons.injEq, and_true]
    omega
  | [b1, b2], h => by
    have hb1 : b1 < 256 := h b1 (by simp)
    have hb2 : b2 < 256 := h b2 (by simp)
    simp only [b64urlEncode, b64urlDecode]
    rw [b64CharVal_b64Char _ (by omega), b64CharVal_b64Char _ (by omega),
      b64CharVal_b64Char _ (by omega)]
    simp only [Option.some.injEq, List.cons.injEq, and_true]
    constructor <;> omega
  | b1 :: b2 :: b3 :: rest, h => by
    have hb1 : b1 < 256 := h b1 (by simp)
    have hb2 : b2 < 256 := h b2 (by simp)
    have hb3 : b3 < 256 := h b3 (by simp)
    have ih := b64url_decode_encode rest (fun b hb => h b (by simp [hb]))
    simp only [b64urlEncode, b64urlDecode]
    rw [b64CharVal_b64Char _ (by omega), b64CharVal_b64Char _ (by omega),
      b64CharVal_b64Char _ (by omega), b64CharVal_b64Char _ (by omega), ih]
    simp only [Option.some.injEq, List.cons.injEq, and_true]
    refine ⟨by omega, by omega, by omega⟩

/-- Every digest byte of `word4` is below 256. -/
theorem word4_lt (w : Nat) : ∀ b ∈ word4 w, b < 256 := by
  intro b hb
  simp only [word4, List.mem_cons, List.not_mem_nil, or_false] at hb
  rcases hb with rfl | rfl | rfl | rfl <;> omega

/-- A SHA-256 digest has 32 bytes. -/
theorem sha256_length (msg : List Nat) : (sha256 msg).length = 32 := by
  simp [sha256, hash8Bytes, word4]

/-- Every SHA-256 digest byte is below 256. -/
theorem sha256_lt (msg : List Nat) : ∀ b ∈ sha256 msg, b < 256 := by
  intro b hb
  simp only [sha256, hash8Bytes, List.mem_append] at hb
  rcases hb with ((((((h | h) | h) | h) | h) | h) | h) | h <;>
    exact word4_lt _ b h

/-- A `take()`-then-send leaves the channel history at most one entry
longer, and only when the sender slot was still occupied. -/
theorem trySend_sent_le (st : ServerState) (ch : Oneshot) (m : CallbackMsg) :
    (st.trySend ch m).2.sent.length ≤
      ch.sent.length + (if st.txPresent then 1 else 0) := by
  unfold ServerState.trySend Oneshot.send
  rcases hst : st.txPresent <;> simp [hst]
  split <;> simp

/-- Whatever the branch, `process_callback`'s channel result is a
`trySend` of a single message. -/
theorem process_callback_ch_exists (code received_state error : Option String)
    (st : ServerState) (ch : Oneshot) :
    ∃ m, (process_callback code received_state error st ch).ch =
      (st.trySend ch m).2 := by
  cases error with
  | some err => exact ⟨_, rfl⟩
  | none =>
    simp only [process_callback]
    split
    · exact ⟨_, rfl⟩
    · split <;> exact ⟨_, rfl⟩

/-- The `take()` always empties the sender slot. -/
theorem process_callback_txPresent (code received_state error : Option String)
    (st : ServerState) (ch : Oneshot) :
    (process_callback code received_state error st ch).st.txPresent = false := by
  cases error with
  | some err => rfl
  | none =>
    simp only [process_callback]
    split
    · rfl
    · split <;> rfl

/-- Every branch of `process_callback` reports `should_stop = true`. -/
theorem process_callback_stop (code received_state error : Option String)
    (st : ServerState) (ch : Oneshot) :
    (process_callback code received_state error st ch).should_stop = true := by
  cases error with
  | some err => rfl
  | none =>
    simp only [process_callback]
    split
    · rfl
    · split <;> rfl

/-- One `process_callback` call grows the delivered-message history by at
most one entry, and only when the sender slot was still occupied. -/
theorem process_callback_sent_le (code received_state error : Option String)
    (st : ServerState) (ch : Oneshot) :
    (process_callback code received_state error st ch).ch.sent.length ≤
      ch.sent.length + (if st.txPresent then 1 else 0) := by
  obtain ⟨m, hm⟩ := process_callback_ch_exists code received_state error st ch
  rw [hm]
  exact trySend_sent_le st ch m

/-- With the sender slot already consumed, `process_callback` leaves the
channel untouched. -/
theorem process_callback_noop_of_consumed (code received_state error : Option String)
    (st : ServerState) (ch : Oneshot) (h : st.txPresent = false) :
    (process_callback code received_state error st ch).ch = ch := by
  obtain ⟨m, hm⟩ := process_callback_ch_exists code received_state error st ch
  rw [hm]
  unfold ServerState.trySend
  simp [h]

/-- With the receive side abandoned, `process_callback` delivers nothing. -/
theorem process_callback_noop_of_abandoned (code received_state error : Option String)
    (st : ServerState) (ch : Oneshot) (h : ch.receiverAlive = false) :
    (process_callback code received_state error st ch).ch.sent = ch.sent := by
  obtain ⟨m, hm⟩ := process_callback_ch_exists code received_state error st ch
  rw [hm]
  unfold ServerState.trySend Oneshot.send
  split <;> simp [h]

/-- The wrapper `handle_callback_request` inherits `should_stop = true`. -/
theorem handle_callback_request_stop (req : Request) (st : ServerState)
    (ch : Oneshot) :
    (handle_callback_request req st ch).should_stop = true := by
  unfold handle_callback_request
  exact process_callback_stop _ _ _ st ch

/-- The wrapper `handle_callback_request` inherits the at-most-one-send bound. -/
theorem handle_callback_request_sent_le (req : Request) (st : ServerState)
    (ch : Oneshot) :
    (handle_callback_request req st ch).ch.sent.length ≤
      ch.sent.length + (if st.txPresent then 1 else 0) := by
  unfold handle_callback_request
  exact process_callback_sent_le _ _ _ st ch

set_option maxHeartbeats 1000000 in
/-- Unfolding equation of the accept loop: no pending requests. -/
theorem run_sync_server_loop_nil (st : ServerState) (ch : Oneshot) :
    run_sync_server_loop [] st ch = { st := st, ch := ch, responses := [] } := rfl

set_option maxHeartbeats 1000000 in
/-- Unfolding equation of the accept loop: one request followed by the
rest. -/
theorem run_sync_server_loop_cons (req : Request) (rest : List Request)
    (st : ServerState) (ch : Oneshot) :
    run_sync_server_loop (req :: rest) st ch =
      if strStartsWith req.url "/auth/callback" then
        let r := handle_callback_request req st ch
        if r.should_stop then
          { st := r.st, ch := r.ch, responses := [{ status := 200, body := r.html }] }
        else
          let rec' := run_sync_server_loop rest r.st r.ch
          { rec' with responses := { status := 200, body := r.html } :: rec'.responses }
      else
        let rec' := run_sync_server_loop rest st ch
        { rec' with responses := { status := 404, body := "Not Found" } :: rec'.responses } := rfl

/-- Loop invariant: however many requests arrive, the accept loop adds at
most one message to the channel history, and none once the sender slot is
gone. -/
theorem run_sync_server_loop_sent_le : ∀ (reqs : List Request)
    (st : ServerState) (ch : Oneshot),
    (run_sync_server_loop reqs st ch).ch.sent.length ≤
      ch.sent.length + (if st.txPresent then 1 else 0)
  | [], st, ch => by
    rw [run_sync_server_loop_nil]
    dsimp only
    split <;> omega
  | req :: rest, st, ch => by
    rw [run_sync_server_loop_cons]
    split
    · simp only [handle_callback_request_stop, if_true]
      exact handle_callback_request_sent_le req st ch
    · exact run_sync_server_loop_sent_le rest st ch

/-! ## Claim theorems -/

/-- C1: every inbound callback request is classified in this exact order:
a present `error` parameter yields the provider-error outcome carrying that
value irrespective of other parameters; otherwise a `state` parameter
(empty string when absent) differing byte-for-byte from the expected state
yields the state-mismatch outcome even when a valid `code` is present;
otherwise a missing `code` yields the missing-code outcome; otherwise the
success outcome carries the code — and every classification also stops the
listener. -/
theorem C1_callback_classification (code received_state error : Option String)
    (st : ServerState) (ch : Oneshot) :
    (process_callback code received_state error st ch).event =
      classifyOutcomeSpec code received_state error st.expected_state ∧
    (process_callback code received_state error st ch).should_stop = true := by
  refine ⟨?_, process_callback_stop code received_state error st ch⟩
  cases error with
  | some err => rfl
  | none =>
    simp only [process_callback, classifyOutcomeSpec]
    by_cases h : received_state.getD "" ≠ st.expected_state
    · simp only [if_pos h]
    · simp only [if_neg h]
      cases code <;> rfl

/-- C2: across any sequence of requests served by one listener whose sender
slot starts occupied and whose history starts empty, at most one outcome is
ever sent on the handoff channel; sending after the slot is consumed leaves
the channel untouched, and sending after the consumer abandoned the receive
side delivers nothing — in every case the (total) model returns normally,
never panicking. -/
theorem C2_exactly_once_delivery (reqs : List Request) (st : ServerState)
    (ch : Oneshot) (code received_state error : Option String)
    (st2 : ServerState) (ch2 : Oneshot) (st3 : ServerState) (ch3 : Oneshot)
    (h1 : st.txPresent = true) (h2 : ch.sent = [])
    (h3 : st2.txPresent = false) (h4 : ch3.receiverAlive = false) :
    (run_sync_server_loop reqs st ch).ch.sent.length ≤ 1 ∧
    (process_callback code received_state error st2 ch2).ch = ch2 ∧
    (process_callback code received_state error st3 ch3).ch.sent = ch3.sent := by
  refine ⟨?_, process_callback_noop_of_consumed _ _ _ _ _ h3,
    process_callback_noop_of_abandoned _ _ _ _ _ h4⟩
  have h := run_sync_server_loop_sent_le reqs st ch
  rw [h1, h2] at h
  simpa using h

/-- Witness for C2 at concrete inputs: two successive callback requests
yield at most one delivery; a consumed slot and an abandoned receiver are
silent no-ops. -/
theorem C2_exactly_once_delivery_witness :
    (run_sync_server_loop
        [{ url := "/auth/callback?code=a" }, { url := "/auth/callback?code=b" }]
        { txPresent := true, expected_state := "", html_responder := fun _ => "ok" }
        { receiverAlive := true, sent := [] }).ch.sent.length ≤ 1 ∧
    (process_callback (some "c") none none
        { txPresent := false, expected_state := "", html_responder := fun _ => "ok" }
        { receiverAlive := true, sent := [] }).ch =
      { receiverAlive := true, sent := [] } ∧
    (process_callback (some "c") none none
        { txPresent := true, expected_state := "x", html_responder := fun _ => "ok" }
        { receiverAlive := false, sent := [] }).ch.sent = [] :=
  C2_exactly_once_delivery _ _ _ (some "c") none none _ _ _ _ rfl rfl rfl rfl

/-- C3 (code bug): on a non-2xx token-endpoint response, `obtain_api_key`
returns the generic `Http` error — not the `ApiKeyExchange` kind the
specification assigns to it — while `refresh_token` is the function that
returns `ApiKeyExchange`: the two legs are swapped relative to the error
variants' own naming. -/
theorem C3_obtain_api_key_err_kind :
    OAuthClient.obtain_api_key (fun _ => none) { status := 401, body := "denied" } =
      .error (.Http 401 "denied") ∧
    OpenAIAuthError.kind (.Http 401 "denied") ≠ "ApiKeyExchange" ∧
    OAuthClient.refresh_token (fun _ => none) { status := 401, body := "denied" } =
      .error (.ApiKeyExchange 401 "denied") :=
  ⟨rfl, by decide, rfl⟩

/-- Counterexample to C4 as stated: the source dispatches on the URL prefix
`/auth/callback`, so a request whose path is `/auth/callbackX` — a path
different from the fixed callback path — is still handled as a callback:
it receives a 200 response, a message is sent on the handoff channel, and
the listener stops, instead of the claimed 404 with no transition. -/
theorem C4_counterexample :
    urlPath "/auth/callbackX" ≠ "/auth/callback" ∧
    (run_sync_server_loop [{ url := "/auth/callbackX" }]
        { txPresent := true, expected_state := "", html_responder := fun _ => "html" }
        { receiverAlive := true, sent := [] }).ch.sent =
      [.error .InvalidAuthorizationCode] ∧
    (run_sync_server_loop [{ url := "/auth/callbackX" }]
        { txPresent := true, expected_state := "", html_responder := fun _ => "html" }
        { receiverAlive := true, sent := [] }).responses =
      [{ status := 200, body := "html" }] :=
  ⟨by decide, by decide, by decide⟩

/-- C4 (amended): for every inbound request whose URL does not start with
`/auth/callback`, the listener responds `404 Not Found` and performs no
state transition: nothing is sent on the handoff channel, the server state
is passed on unchanged, and the accept loop keeps running over the
remaining requests. -/
theorem C4_non_callback_no_transition (req : Request) (rest : List Request)
    (st : ServerState) (ch : Oneshot)
    (h : strStartsWith req.url "/auth/callback" = false) :
    run_sync_server_loop (req :: rest) st ch =
      { st := (run_sync_server_loop rest st ch).st,
        ch := (run_sync_server_loop rest st ch).ch,
        responses := { status := 404, body := "Not Found" } ::
          (run_sync_server_loop rest st ch).responses } := by
  rw [run_sync_server_loop_cons, h]
  simp

/-- Witness for C4 (amended) at a concrete foreign path. -/
theorem C4_non_callback_no_transition_witness :
    run_sync_server_loop [{ url := "/favicon.ico" }]
        { txPresent := true, expected_state := "s", html_responder := fun _ => "h" }
        { receiverAlive := true, sent := [] } =
      { st := (run_sync_server_loop []
          { txPresent := true, expected_state := "s", html_responder := fun _ => "h" }
          { receiverAlive := true, sent := [] }).st,
        ch := (run_sync_server_loop []
          { txPresent := true, expected_state := "s", html_responder := fun _ => "h" }
          { receiverAlive := true, sent := [] }).ch,
        responses := { status := 404, body := "Not Found" } ::
          (run_sync_server_loop []
            { txPresent := true, expected_state := "s", html_responder := fun _ => "h" }
            { receiverAlive := true, sent := [] }).responses } :=
  C4_non_callback_no_transition { url := "/favicon.ico" } [] _ _ rfl

/-- Counterexample to C5 as stated: a failing authorization-endpoint parse
makes `start_flow` fail with the `UrlParse` error kind (the `#[from]`
conversion of `url::ParseError`), not the claimed `InvalidConfig` kind. -/
theorem C5_counterexample :
    OAuthClient.start_flow { config := OAuthConfig.defaultConfig }
        (.error "relative URL without a base") "st" "ch" "vf" =
      .error (.UrlParse "relative URL without a base") ∧
    OpenAIAuthError.kind (.UrlParse "relative URL without a base") ≠ "InvalidConfig" :=
  ⟨rfl, by decide⟩

/-- C5 (amended): `start_flow` fails exactly when the configured
authorization endpoint fails to parse as a URL, and then with the
`UrlParse` error kind; for every parseable endpoint it returns a flow
whose authorization URL's query contains `response_type=code`, the client
id, the redirect URI, the scope string, the PKCE challenge,
`code_challenge_method=S256`, the state, and the three provider-specific
flags. -/
theorem C5_start_flow_url (c : OAuthClient) (u : Url) (e : String)
    (state chall ver : String) :
    c.start_flow (.error e) state chall ver = .error (.UrlParse e) ∧
    ∃ flow, c.start_flow (.ok u) state chall ver = .ok flow ∧
      flow.pkce_verifier = ver ∧ flow.state = state ∧
      [("response_type", "code"),
       ("client_id", c.config.client_id),
       ("redirect_uri", c.config.redirect_uri),
       ("scope", "openid profile email offline_access"),
       ("code_challenge", chall),
       ("code_challenge_method", "S256"),
       ("state", state),
       ("id_token_add_organizations", "true"),
       ("codex_cli_simplified_flow", "true"),
       ("originator", "codex_cli_rs")] ⊆ flow.authorization_url.query := by
  refine ⟨rfl, _, rfl, rfl, rfl, ?_⟩
  intro x hx
  simp only [OAuthClient.start_flow, Url.appendPairs]
  exact List.mem_append_right _ hx

/-- C6 counterexample as stated: an unparseable token yields the
`JwtDecode` error kind, not the claimed `InvalidJwt`; and a present but
empty `chatgpt_account_id` claim is returned as a success, not rejected as
missing. -/
theorem C6_counterexample :
    extract_account_id (.error "InvalidToken") = .error (.JwtDecode "InvalidToken") ∧
    OpenAIAuthError.kind (.JwtDecode "InvalidToken") ≠ "InvalidJwt" ∧
    extract_account_id
        (.ok { openai_auth := some { chatgpt_account_id := some "" } }) = .ok "" :=
  ⟨rfl, by decide, rfl⟩

/-- C6 (amended): `extract_account_id` fails with the `JwtDecode` error kind
when the token structure cannot be parsed at all, and with `MissingJwtClaim`
when parsing succeeds but the nested `chatgpt_account_id` claim is absent
(an empty-string claim value is returned as a success); signature
verification and expiry validation are disabled on every call. -/
theorem C6_extract_account_id_errs (e : String) (s : String) :
    extract_account_id (.error e) = .error (.JwtDecode e) ∧
    extract_account_id (.ok { openai_auth := none }) =
      .error (.MissingJwtClaim "chatgpt_account_id") ∧
    extract_account_id (.ok { openai_auth := some { chatgpt_account_id := none } }) =
      .error (.MissingJwtClaim "chatgpt_account_id") ∧
    extract_account_id (.ok { openai_auth := some { chatgpt_account_id := some s } }) =
      .ok s ∧
    extract_account_id_validation.validate_signature = false ∧
    extract_account_id_validation.validate_exp = false :=
  ⟨rfl, rfl, rfl, rfl, rfl, rfl⟩

/-- C7: for 32 random input bytes, the generated verifier is their unpadded
base64url encoding — 43 characters, all in the URL-safe alphabet — and
base64url-decoding the challenge recovers the SHA-256 digest of the
verifier's ASCII bytes. -/
theorem C7_pkce_pair (randomBytes : List Nat) (hlen : randomBytes.length = 32)
    (hrange : ∀ b ∈ randomBytes, b < 256) :
    (generate_pkce_pair randomBytes).2 = b64urlEncode randomBytes ∧
    (generate_pkce_pair randomBytes).2.length = 43 ∧
    (∀ c ∈ (generate_pkce_pair randomBytes).2, c ∈ b64Alphabet) ∧
    b64urlDecode (generate_pkce_pair randomBytes).1 =
      some (sha256 (charsToBytes (generate_pkce_pair randomBytes).2)) := by
  refine ⟨rfl, ?_, ?_, ?_⟩
  · show (b64urlEncode randomBytes).length = 43
    rw [b64urlEncode_length, hlen]
  · exact fun c hc => b64urlEncode_mem randomBytes c hc
  · show b64urlDecode
        (b64urlEncode (sha256 (charsToBytes (b64urlEncode randomBytes)))) = _
    exact b64url_decode_encode _ (sha256_lt _)

/-- Witness for C7 at a concrete all-zero byte input. -/
theorem C7_pkce_pair_witness :
    (generate_pkce_pair (List.replicate 32 0)).2 =
      b64urlEncode (List.replicate 32 0) ∧
    (generate_pkce_pair (List.replicate 32 0)).2.length = 43 ∧
    (∀ c ∈ (generate_pkce_pair (List.replicate 32 0)).2, c ∈ b64Alphabet) ∧
    b64urlDecode (generate_pkce_pair (List.replicate 32 0)).1 =
      some (sha256 (charsToBytes (generate_pkce_pair (List.replicate 32 0)).2)) :=
  C7_pkce_pair (List.replicate 32 0) (by decide) (by decide)

/-- C8: for every token set and wall-clock time, `expires_in` is the time
to `expires_at` when that is in the future and exactly zero otherwise
(equivalently, truncated subtraction — never negative), and `is_expired`
holds exactly when `expires_in` is at most 300 seconds, the 300-second
boundary included. -/
theorem C8_token_expiry (ts : TokenSet) (now : Nat) :
    ts.expires_in now = (if now < ts.expires_at then ts.expires_at - now else 0) ∧
    ts.expires_in now = ts.expires_at - now ∧
    (ts.is_expired now = true ↔ ts.expires_in now ≤ 300) := by
  refine ⟨rfl, ?_, ?_⟩
  · unfold TokenSet.expires_in
    split <;> omega
  · simp [TokenSet.is_expired]

/-- C9: the caller-supplied HTML responder affects only the HTML body:
with identical requests, sender-slot state, expected state and channel,
two listeners differing only in their responder produce the same channel
effect, the same slot consumption, the same classified event, and the same
stop decision. -/
theorem C9_responder_noninterference (code received_state error : Option String)
    (tx : Bool) (expected : String) (r1 r2 : CallbackEvent → String)
    (ch : Oneshot) :
    (process_callback code received_state error
        { txPresent := tx, expected_state := expected, html_responder := r1 } ch).ch =
      (process_callback code received_state error
        { txPresent := tx, expected_state := expected, html_responder := r2 } ch).ch ∧
    (process_callback code received_state error
        { txPresent := tx, expected_state := expected, html_responder := r1 } ch).st.txPresent =
      (process_callback code received_state error
        { txPresent := tx, expected_state := expected, html_responder := r2 } ch).st.txPresent ∧
    (process_callback code received_state error
        { txPresent := tx, expected_state := expected, html_responder := r1 } ch).event =
      (process_callback code received_state error
        { txPresent := tx, expected_state := expected, html_responder := r2 } ch).event ∧
    (process_callback code received_state error
        { txPresent := tx, expected_state := expected, html_responder := r1 } ch).should_stop =
      (process_callback code received_state error
        { txPresent := tx, expected_state := expected, html_responder := r2 } ch).should_stop := by
  cases error with
  | some err => exact ⟨rfl, rfl, rfl, rfl⟩
  | none =>
    simp only [process_callback]
    by_cases h : received_state.getD "" ≠ expected
    · simp only [if_pos h]
      refine ⟨?_, ?_, ?_, ?_⟩ <;> trivial
    · simp only [if_neg h]
      cases code <;> (refine ⟨?_, ?_, ?_, ?_⟩ <;> trivial)

/-- C10: `OAuthClient::new` succeeds on every configuration — no validation
happens at construction — and a malformed authorization endpoint surfaces
only later, when `start_flow` runs the URL parse. -/
theorem C10_new_unvalidated (cfg : OAuthConfig) (c : OAuthClient) (e : String)
    (state chall ver : String) :
    OAuthClient.new cfg = .ok { config := cfg } ∧
    OAuthClient.start_flow c (.error e) state chall ver = .error (.UrlParse e) :=
  ⟨rfl, rfl⟩

end OpenAIAuth
